import Mathlib

/-!
Verification of the GoS3Api storage orchestration service.

The definitions below are a shallow embedding of the Go source:
`uploadService` (bucket-name validation, content validation, single and
multi-file upload, listing with extension filter, bucket stats) and the
`S3Repository` helpers (`formatBytes`, URL construction).  Strings are
modelled as Lean `String`/`List Char`; Go byte lengths use UTF-8 sizes;
Go `int32`/`int64` are `Int` with explicit wrap-around where it matters.
-/

deriving instance DecidableEq for Except

namespace GoS3

/-! ### Go string primitives -/

/-- Go's `unicode.IsSpace`: the Unicode White_Space property
(U+0009–U+000D, U+0020, U+0085, U+00A0, U+1680, U+2000–U+200A,
U+2028, U+2029, U+202F, U+205F, U+3000). -/
def goIsSpace (c : Char) : Bool :=
  let n := c.toNat
  (9 ≤ n && n ≤ 13) || n == 32 || n == 0x85 || n == 0xA0 || n == 0x1680 ||
  (0x2000 ≤ n && n ≤ 0x200A) || n == 0x2028 || n == 0x2029 ||
  n == 0x202F || n == 0x205F || n == 0x3000

/-- The Unicode simple lowercase mapping (the table behind Go's
`unicode.ToLower`), encoded as a binary decision tree over code points:
returns the delta to add to lower-case the code point, 0 when the code
point has no simple lowercase mapping.  Includes e.g. U+212A KELVIN SIGN
-> 'k' and U+0130 -> 'i' (whose simple mapping is the single code point
U+0069); ranges written `(n - lo) % 2 = 0` hold alternating
upper/lower pairs. -/
def goLowerDelta (n : Nat) : Int :=
  if n < 5104 then
    if n < 459 then
      if n < 406 then
        if n < 386 then
          if n < 306 then
            if n < 216 then
              if n < 192 then
                if 65 ≤ n ∧ n ≤ 90 then 32 else 0
              else
                if 192 ≤ n ∧ n ≤ 214 then 32 else 0
            else
              if n < 256 then
                if 216 ≤ n ∧ n ≤ 222 then 32 else 0
              else
                if n < 304 then
                  if 256 ≤ n ∧ n ≤ 302 ∧ (n - 256) % 2 = 0 then 1 else 0
                else
                  if 304 ≤ n ∧ n ≤ 304 then (-199) else 0
          else
            if n < 376 then
              if n < 313 then
                if 306 ≤ n ∧ n ≤ 310 ∧ (n - 306) % 2 = 0 then 1 else 0
              else
                if n < 330 then
                  if 313 ≤ n ∧ n ≤ 327 ∧ (n - 313) % 2 = 0 then 1 else 0
                else
                  if 330 ≤ n ∧ n ≤ 374 ∧ (n - 330) % 2 = 0 then 1 else 0
            else
              if n < 377 then
                if 376 ≤ n ∧ n ≤ 376 then (-121) else 0
              else
                if n < 385 then
                  if 377 ≤ n ∧ n ≤ 381 ∧ (n - 377) % 2 = 0 then 1 else 0
                else
                  if 385 ≤ n ∧ n ≤ 385 then 210 else 0
        else
          if n < 398 then
            if n < 391 then
              if n < 390 then
                if 386 ≤ n ∧ n ≤ 388 ∧ (n - 386) % 2 = 0 then 1 else 0
              else
                if 390 ≤ n ∧ n ≤ 390 then 206 else 0
            else
              if n < 393 then
                if 391 ≤ n ∧ n ≤ 391 then 1 else 0
              else
                if n < 395 then
                  if 393 ≤ n ∧ n ≤ 394 then 205 else 0
                else
                  if 395 ≤ n ∧ n ≤ 395 then 1 else 0
          else
            if n < 401 then
              if n < 399 then
                if 398 ≤ n ∧ n ≤ 398 then 79 else 0
              else
                if n < 400 then
                  if 399 ≤ n ∧ n ≤ 399 then 202 else 0
                else
                  if 400 ≤ n ∧ n ≤ 400 then 203 else 0
            else
              if n < 403 then
                if 401 ≤ n ∧ n ≤ 401 then 1 else 0
              else
                if n < 404 then
                  if 403 ≤ n ∧ n ≤ 403 then 205 else 0
                else
                  if 404 ≤ n ∧ n ≤ 404 then 207 else 0
      else
        if n < 430 then
          if n < 415 then
            if n < 408 then
              if n < 407 then
                if 406 ≤ n ∧ n ≤ 406 then 211 else 0
              else
                if 407 ≤ n ∧ n ≤ 407 then 209 else 0
            else
              if n < 412 then
                if 408 ≤ n ∧ n ≤ 408 then 1 else 0
              else
                if n < 413 then
                  if 412 ≤ n ∧ n ≤ 412 then 211 else 0
                else
                  if 413 ≤ n ∧ n ≤ 413 then 213 else 0
          else
            if n < 423 then
              if n < 416 then
                if 415 ≤ n ∧ n ≤ 415 then 214 else 0
              else
                if n < 422 then
                  if 416 ≤ n ∧ n ≤ 420 ∧ (n - 416) % 2 = 0 then 1 else 0
                else
                  if 422 ≤ n ∧ n ≤ 422 then 218 else 0
            else
              if n < 425 then
                if 423 ≤ n ∧ n ≤ 423 then 1 else 0
              else
                if n < 428 then
                  if 425 ≤ n ∧ n ≤ 425 then 218 else 0
                else
                  if 428 ≤ n ∧ n ≤ 428 then 1 else 0
        else
          if n < 444 then
            if n < 435 then
              if n < 431 then
                if 430 ≤ n ∧ n ≤ 430 then 218 else 0
              else
                if n < 433 then
                  if 431 ≤ n ∧ n ≤ 431 then 1 else 0
                else
                  if 433 ≤ n ∧ n ≤ 434 then 217 else 0
            else
              if n < 439 then
                if 435 ≤ n ∧ n ≤ 437 ∧ (n - 435) % 2 = 0 then 1 else 0
              else
                if n < 440 then
                  if 439 ≤ n ∧ n ≤ 439 then 219 else 0
                else
                  if 440 ≤ n ∧ n ≤ 440 then 1 else 0
          else
            if n < 455 then
              if n < 452 then
                if 444 ≤ n ∧ n ≤ 444 then 1 else 0
              else
                if n < 453 then
                  if 452 ≤ n ∧ n ≤ 452 then 2 else 0
                else
                  if 453 ≤ n ∧ n ≤ 453 then 1 else 0
            else
              if n < 456 then
                if 455 ≤ n ∧ n ≤ 455 then 2 else 0
              else
                if n < 458 then
                  if 456 ≤ n ∧ n ≤ 456 then 1 else 0
                else
                  if 458 ≤ n ∧ n ≤ 458 then 2 else 0
    else
      if n < 908 then
        if n < 573 then
          if n < 503 then
            if n < 497 then
              if n < 478 then
                if 459 ≤ n ∧ n ≤ 475 ∧ (n - 459) % 2 = 0 then 1 else 0
              else
                if 478 ≤ n ∧ n ≤ 494 ∧ (n - 478) % 2 = 0 then 1 else 0
            else
              if n < 498 then
                if 497 ≤ n ∧ n ≤ 497 then 2 else 0
              else
                if n < 502 then
                  if 498 ≤ n ∧ n ≤ 500 ∧ (n - 498) % 2 = 0 then 1 else 0
                else
                  if 502 ≤ n ∧ n ≤ 502 then (-97) else 0
          else
            if n < 546 then
              if n < 504 then
                if 503 ≤ n ∧ n ≤ 503 then (-56) else 0
              else
                if n < 544 then
                  if 504 ≤ n ∧ n ≤ 542 ∧ (n - 504) % 2 = 0 then 1 else 0
                else
                  if 544 ≤ n ∧ n ≤ 544 then (-130) else 0
            else
              if n < 570 then
                if 546 ≤ n ∧ n ≤ 562 ∧ (n - 546) % 2 = 0 then 1 else 0
              else
                if n < 571 then
                  if 570 ≤ n ∧ n ≤ 570 then 10795 else 0
                else
                  if 571 ≤ n ∧ n ≤ 571 then 1 else 0
        else
          if n < 582 then
            if n < 579 then
              if n < 574 then
                if 573 ≤ n ∧ n ≤ 573 then (-163) else 0
              else
                if n < 577 then
                  if 574 ≤ n ∧ n ≤ 574 then 10792 else 0
                else
                  if 577 ≤ n ∧ n ≤ 577 then 1 else 0
            else
              if n < 580 then
                if 579 ≤ n ∧ n ≤ 579 then (-195) else 0
              else
                if n < 581 then
                  if 580 ≤ n ∧ n ≤ 580 then 69 else 0
                else
                  if 581 ≤ n ∧ n ≤ 581 then 71 else 0
          else
            if n < 895 then
              if n < 880 then
                if 582 ≤ n ∧ n ≤ 590 ∧ (n - 582) % 2 = 0 then 1 else 0
              else
                if n < 886 then
                  if 880 ≤ n ∧ n ≤ 882 ∧ (n - 880) % 2 = 0 then 1 else 0
                else
                  if 886 ≤ n ∧ n ≤ 886 then 1 else 0
            else
              if n < 902 then
                if 895 ≤ n ∧ n ≤ 895 then 116 else 0
              else
                if n < 904 then
                  if 902 ≤ n ∧ n ≤ 902 then 38 else 0
                else
                  if 904 ≤ n ∧ n ≤ 906 then 37 else 0
      else
        if n < 1024 then
          if n < 984 then
            if n < 913 then
              if n < 910 then
                if 908 ≤ n ∧ n ≤ 908 then 64 else 0
              else
                if 910 ≤ n ∧ n ≤ 911 then 63 else 0
            else
              if n < 931 then
                if 913 ≤ n ∧ n ≤ 929 then 32 else 0
              else
                if n < 975 then
                  if 931 ≤ n ∧ n ≤ 939 then 32 else 0
                else
                  if 975 ≤ n ∧ n ≤ 975 then 8 else 0
          else
            if n < 1017 then
              if n < 1012 then
                if 984 ≤ n ∧ n ≤ 1006 ∧ (n - 984) % 2 = 0 then 1 else 0
              else
                if n < 1015 then
                  if 1012 ≤ n ∧ n ≤ 1012 then (-60) else 0
                else
                  if 1015 ≤ n ∧ n ≤ 1015 then 1 else 0
            else
              if n < 1018 then
                if 1017 ≤ n ∧ n ≤ 1017 then (-7) else 0
              else
                if n < 1021 then
                  if 1018 ≤ n ∧ n ≤ 1018 then 1 else 0
                else
                  if 1021 ≤ n ∧ n ≤ 1023 then (-130) else 0
        else
          if n < 1232 then
            if n < 1162 then
              if n < 1040 then
                if 1024 ≤ n ∧ n ≤ 1039 then 80 else 0
              else
                if n < 1120 then
                  if 1040 ≤ n ∧ n ≤ 1071 then 32 else 0
                else
                  if 1120 ≤ n ∧ n ≤ 1152 ∧ (n - 1120) % 2 = 0 then 1 else 0
            else
              if n < 1216 then
                if 1162 ≤ n ∧ n ≤ 1214 ∧ (n - 1162) % 2 = 0 then 1 else 0
              else
                if n < 1217 then
                  if 1216 ≤ n ∧ n ≤ 1216 then 15 else 0
                else
                  if 1217 ≤ n ∧ n ≤ 1229 ∧ (n - 1217) % 2 = 0 then 1 else 0
          else
            if n < 4295 then
              if n < 1329 then
                if 1232 ≤ n ∧ n ≤ 1326 ∧ (n - 1232) % 2 = 0 then 1 else 0
              else
                if n < 4256 then
                  if 1329 ≤ n ∧ n ≤ 1366 then 48 else 0
                else
                  if 4256 ≤ n ∧ n ≤ 4293 then 7264 else 0
            else
              if n < 4301 then
                if 4295 ≤ n ∧ n ≤ 4295 then 7264 else 0
              else
                if n < 5024 then
                  if 4301 ≤ n ∧ n ≤ 4301 then 7264 else 0
                else
                  if 5024 ≤ n ∧ n ≤ 5103 then 38864 else 0
  else
    if n < 11376 then
      if n < 8154 then
        if n < 8025 then
          if n < 7840 then
            if n < 7357 then
              if n < 7312 then
                if 5104 ≤ n ∧ n ≤ 5109 then 8 else 0
              else
                if 7312 ≤ n ∧ n ≤ 7354 then (-3008) else 0
            else
              if n < 7680 then
                if 7357 ≤ n ∧ n ≤ 7359 then (-3008) else 0
              else
                if n < 7838 then
                  if 7680 ≤ n ∧ n ≤ 7828 ∧ (n - 7680) % 2 = 0 then 1 else 0
                else
                  if 7838 ≤ n ∧ n ≤ 7838 then (-7615) else 0
          else
            if n < 7976 then
              if n < 7944 then
                if 7840 ≤ n ∧ n ≤ 7934 ∧ (n - 7840) % 2 = 0 then 1 else 0
              else
                if n < 7960 then
                  if 7944 ≤ n ∧ n ≤ 7951 then (-8) else 0
                else
                  if 7960 ≤ n ∧ n ≤ 7965 then (-8) else 0
            else
              if n < 7992 then
                if 7976 ≤ n ∧ n ≤ 7983 then (-8) else 0
              else
                if n < 8008 then
                  if 7992 ≤ n ∧ n ≤ 7999 then (-8) else 0
                else
                  if 8008 ≤ n ∧ n ≤ 8013 then (-8) else 0
        else
          if n < 8120 then
            if n < 8072 then
              if n < 8040 then
                if 8025 ≤ n ∧ n ≤ 8031 ∧ (n - 8025) % 2 = 0 then (-8) else 0
              else
                if 8040 ≤ n ∧ n ≤ 8047 then (-8) else 0
            else
              if n < 8088 then
                if 8072 ≤ n ∧ n ≤ 8079 then (-8) else 0
              else
                if n < 8104 then
                  if 8088 ≤ n ∧ n ≤ 8095 then (-8) else 0
                else
                  if 8104 ≤ n ∧ n ≤ 8111 then (-8) else 0
          else
            if n < 8136 then
              if n < 8122 then
                if 8120 ≤ n ∧ n ≤ 8121 then (-8) else 0
              else
                if n < 8124 then
                  if 8122 ≤ n ∧ n ≤ 8123 then (-74) else 0
                else
                  if 8124 ≤ n ∧ n ≤ 8124 then (-9) else 0
            else
              if n < 8140 then
                if 8136 ≤ n ∧ n ≤ 8139 then (-86) else 0
              else
                if n < 8152 then
                  if 8140 ≤ n ∧ n ≤ 8140 then (-9) else 0
                else
                  if 8152 ≤ n ∧ n ≤ 8153 then (-8) else 0
      else
        if n < 8544 then
          if n < 8186 then
            if n < 8170 then
              if n < 8168 then
                if 8154 ≤ n ∧ n ≤ 8155 then (-100) else 0
              else
                if 8168 ≤ n ∧ n ≤ 8169 then (-8) else 0
            else
              if n < 8172 then
                if 8170 ≤ n ∧ n ≤ 8171 then (-112) else 0
              else
                if n < 8184 then
                  if 8172 ≤ n ∧ n ≤ 8172 then (-7) else 0
                else
                  if 8184 ≤ n ∧ n ≤ 8185 then (-128) else 0
          else
            if n < 8490 then
              if n < 8188 then
                if 8186 ≤ n ∧ n ≤ 8187 then (-126) else 0
              else
                if n < 8486 then
                  if 8188 ≤ n ∧ n ≤ 8188 then (-9) else 0
                else
                  if 8486 ≤ n ∧ n ≤ 8486 then (-7517) else 0
            else
              if n < 8491 then
                if 8490 ≤ n ∧ n ≤ 8490 then (-8383) else 0
              else
                if n < 8498 then
                  if 8491 ≤ n ∧ n ≤ 8491 then (-8262) else 0
                else
                  if 8498 ≤ n ∧ n ≤ 8498 then 28 else 0
        else
          if n < 11363 then
            if n < 11264 then
              if n < 8579 then
                if 8544 ≤ n ∧ n ≤ 8559 then 16 else 0
              else
                if n < 9398 then
                  if 8579 ≤ n ∧ n ≤ 8579 then 1 else 0
                else
                  if 9398 ≤ n ∧ n ≤ 9423 then 26 else 0
            else
              if n < 11360 then
                if 11264 ≤ n ∧ n ≤ 11311 then 48 else 0
              else
                if n < 11362 then
                  if 11360 ≤ n ∧ n ≤ 11360 then 1 else 0
                else
                  if 11362 ≤ n ∧ n ≤ 11362 then (-10743) else 0
          else
            if n < 11373 then
              if n < 11364 then
                if 11363 ≤ n ∧ n ≤ 11363 then (-3814) else 0
              else
                if n < 11367 then
                  if 11364 ≤ n ∧ n ≤ 11364 then (-10727) else 0
                else
                  if 11367 ≤ n ∧ n ≤ 11371 ∧ (n - 11367) % 2 = 0 then 1 else 0
            else
              if n < 11374 then
                if 11373 ≤ n ∧ n ≤ 11373 then (-10780) else 0
              else
                if n < 11375 then
                  if 11374 ≤ n ∧ n ≤ 11374 then (-10749) else 0
                else
                  if 11375 ≤ n ∧ n ≤ 11375 then (-10783) else 0
    else
      if n < 42928 then
        if n < 42873 then
          if n < 11499 then
            if n < 11381 then
              if n < 11378 then
                if 11376 ≤ n ∧ n ≤ 11376 then (-10782) else 0
              else
                if 11378 ≤ n ∧ n ≤ 11378 then 1 else 0
            else
              if n < 11390 then
                if 11381 ≤ n ∧ n ≤ 11381 then 1 else 0
              else
                if n < 11392 then
                  if 11390 ≤ n ∧ n ≤ 11391 then (-10815) else 0
                else
                  if 11392 ≤ n ∧ n ≤ 11490 ∧ (n - 11392) % 2 = 0 then 1 else 0
          else
            if n < 42624 then
              if n < 11506 then
                if 11499 ≤ n ∧ n ≤ 11501 ∧ (n - 11499) % 2 = 0 then 1 else 0
              else
                if n < 42560 then
                  if 11506 ≤ n ∧ n ≤ 11506 then 1 else 0
                else
                  if 42560 ≤ n ∧ n ≤ 42604 ∧ (n - 42560) % 2 = 0 then 1 else 0
            else
              if n < 42786 then
                if 42624 ≤ n ∧ n ≤ 42650 ∧ (n - 42624) % 2 = 0 then 1 else 0
              else
                if n < 42802 then
                  if 42786 ≤ n ∧ n ≤ 42798 ∧ (n - 42786) % 2 = 0 then 1 else 0
                else
                  if 42802 ≤ n ∧ n ≤ 42862 ∧ (n - 42802) % 2 = 0 then 1 else 0
        else
          if n < 42902 then
            if n < 42891 then
              if n < 42877 then
                if 42873 ≤ n ∧ n ≤ 42875 ∧ (n - 42873) % 2 = 0 then 1 else 0
              else
                if n < 42878 then
                  if 42877 ≤ n ∧ n ≤ 42877 then (-35332) else 0
                else
                  if 42878 ≤ n ∧ n ≤ 42886 ∧ (n - 42878) % 2 = 0 then 1 else 0
            else
              if n < 42893 then
                if 42891 ≤ n ∧ n ≤ 42891 then 1 else 0
              else
                if n < 42896 then
                  if 42893 ≤ n ∧ n ≤ 42893 then (-42280) else 0
                else
                  if 42896 ≤ n ∧ n ≤ 42898 ∧ (n - 42896) % 2 = 0 then 1 else 0
          else
            if n < 42924 then
              if n < 42922 then
                if 42902 ≤ n ∧ n ≤ 42920 ∧ (n - 42902) % 2 = 0 then 1 else 0
              else
                if n < 42923 then
                  if 42922 ≤ n ∧ n ≤ 42922 then (-42308) else 0
                else
                  if 42923 ≤ n ∧ n ≤ 42923 then (-42319) else 0
            else
              if n < 42925 then
                if 42924 ≤ n ∧ n ≤ 42924 then (-42315) else 0
              else
                if n < 42926 then
                  if 42925 ≤ n ∧ n ≤ 42925 then (-42305) else 0
                else
                  if 42926 ≤ n ∧ n ≤ 42926 then (-42308) else 0
      else
        if n < 42997 then
          if n < 42948 then
            if n < 42930 then
              if n < 42929 then
                if 42928 ≤ n ∧ n ≤ 42928 then (-42258) else 0
              else
                if 42929 ≤ n ∧ n ≤ 42929 then (-42282) else 0
            else
              if n < 42931 then
                if 42930 ≤ n ∧ n ≤ 42930 then (-42261) else 0
              else
                if n < 42932 then
                  if 42931 ≤ n ∧ n ≤ 42931 then 928 else 0
                else
                  if 42932 ≤ n ∧ n ≤ 42946 ∧ (n - 42932) % 2 = 0 then 1 else 0
          else
            if n < 42951 then
              if n < 42949 then
                if 42948 ≤ n ∧ n ≤ 42948 then (-48) else 0
              else
                if n < 42950 then
                  if 42949 ≤ n ∧ n ≤ 42949 then (-42307) else 0
                else
                  if 42950 ≤ n ∧ n ≤ 42950 then (-35384) else 0
            else
              if n < 42960 then
                if 42951 ≤ n ∧ n ≤ 42953 ∧ (n - 42951) % 2 = 0 then 1 else 0
              else
                if n < 42966 then
                  if 42960 ≤ n ∧ n ≤ 42960 then 1 else 0
                else
                  if 42966 ≤ n ∧ n ≤ 42968 ∧ (n - 42966) % 2 = 0 then 1 else 0
        else
          if n < 66956 then
            if n < 66736 then
              if n < 65313 then
                if 42997 ≤ n ∧ n ≤ 42997 then 1 else 0
              else
                if n < 66560 then
                  if 65313 ≤ n ∧ n ≤ 65338 then 32 else 0
                else
                  if 66560 ≤ n ∧ n ≤ 66599 then 40 else 0
            else
              if n < 66928 then
                if 66736 ≤ n ∧ n ≤ 66771 then 40 else 0
              else
                if n < 66940 then
                  if 66928 ≤ n ∧ n ≤ 66938 then 39 else 0
                else
                  if 66940 ≤ n ∧ n ≤ 66954 then 39 else 0
          else
            if n < 71840 then
              if n < 66964 then
                if 66956 ≤ n ∧ n ≤ 66962 then 39 else 0
              else
                if n < 68736 then
                  if 66964 ≤ n ∧ n ≤ 66965 then 39 else 0
                else
                  if 68736 ≤ n ∧ n ≤ 68786 then 64 else 0
            else
              if n < 93760 then
                if 71840 ≤ n ∧ n ≤ 71871 then 32 else 0
              else
                if n < 125184 then
                  if 93760 ≤ n ∧ n ≤ 93791 then 32 else 0
                else
                  if 125184 ≤ n ∧ n ≤ 125217 then 34 else 0

/-- Go's `strings.ToLower` on one rune: `unicode.ToLower`, the Unicode
simple (single code point) lowercase mapping. -/
def goToLowerChar (c : Char) : Char :=
  let d := goLowerDelta c.toNat
  if d = 0 then c else Char.ofNat ((c.toNat : Int) + d).toNat

def goToLower (s : List Char) : List Char := s.map goToLowerChar

/-- Drop leading Go whitespace. -/
def goTrimLeft : List Char → List Char
  | [] => []
  | c :: cs => if goIsSpace c then goTrimLeft cs else c :: cs

/-- Go's `strings.TrimSpace` on a rune list. -/
def goTrimSpace (l : List Char) : List Char :=
  (goTrimLeft (goTrimLeft l).reverse).reverse

/-- The UTF-8 byte count of one scalar value. -/
def charUtf8Size (c : Char) : Nat :=
  if c.toNat ≤ 0x7F then 1
  else if c.toNat ≤ 0x7FF then 2
  else if c.toNat ≤ 0xFFFF then 3
  else 4

/-- Go's `len` on a string: the UTF-8 byte length. -/
def utf8Len (l : List Char) : Nat := (l.map charUtf8Size).sum

/-- Go's `path/filepath.Ext`, on reversed characters with an accumulator:
the suffix beginning at the final dot of the final path element,
empty if there is no dot. -/
def goExtAux (acc : List Char) : List Char → List Char
  | [] => []
  | c :: rest =>
    if c = '/' then []
    else if c = '.' then c :: acc
    else goExtAux (c :: acc) rest

def goExt (l : List Char) : List Char := goExtAux [] l.reverse

def goExtStr (s : String) : String := String.mk (goExt s.data)

/-- The caller-supplied base name: the file name with its
`filepath.Ext` suffix removed. -/
def goStemStr (s : String) : String :=
  String.mk (s.data.take (s.data.length - (goExt s.data).length))

/-! ### Errors (`internal/upload/errors.go` and the `fmt.Errorf` cases) -/

inductive Err where
  /-- `ErrBucketNameRequired` -/
  | bucketNameRequired
  /-- `"bucket name length must be between 3 and 63"` -/
  | bucketNameLength
  /-- `"invalid bucket name pattern"` -/
  | bucketNamePattern
  /-- `"bucket name cannot contain consecutive dots"` -/
  | bucketNameDots
  /-- `"file content must support seeking"` -/
  | contentNotSeekable
  /-- `ErrInvalidFileType` -/
  | invalidFileType
  /-- `"failed to generate unique id"` -/
  | uuidGenFailed
  /-- `"file key is required"` -/
  | keyRequired
  /-- `ErrBucketAlreadyExists` -/
  | bucketAlreadyExists
  /-- a repository (backend) error, wrapped -/
  | backend (msg : String)
deriving DecidableEq, Repr

/-! ### Bucket-name validation (`uploadService.validateBucketName`) -/

def minBucketNameLength : Nat := 3
def maxBucketNameLength : Nat := 63

/-- The character class `[a-z0-9]`. -/
def isLowerAlnum (c : Char) : Bool :=
  (97 ≤ c.toNat && c.toNat ≤ 122) || (48 ≤ c.toNat && c.toNat ≤ 57)

/-- The character class `[a-z0-9.-]`. -/
def isBucketMiddleChar (c : Char) : Bool :=
  isLowerAlnum c || c.toNat == 46 || c.toNat == 45

/-- The regex `^[a-z0-9][a-z0-9.-]{1,61}[a-z0-9]$`: total rune length in
`[3,63]`, lowercase-alphanumeric first and last characters, and only
lowercase alphanumerics, dots and hyphens in between. -/
def bucketDNSNameMatch (l : List Char) : Bool :=
  decide (3 ≤ l.length) && decide (l.length ≤ 63) &&
  (match l.head? with | none => false | some c => isLowerAlnum c) &&
  (match l.getLast? with | none => false | some c => isLowerAlnum c) &&
  (l.drop 1).dropLast.all isBucketMiddleChar

/-- `strings.Contains(bucket, "..")`. -/
def containsDoubleDot : List Char → Bool
  | [] => false
  | [_] => false
  | a :: b :: rest => (a == '.' && b == '.') || containsDoubleDot (b :: rest)

/-- The normalisation the validator applies to its local copy:
`strings.TrimSpace(strings.ToLower(bucket))`. -/
def normalizeBucket (bucket : String) : List Char :=
  goTrimSpace (goToLower bucket.data)

/-- `uploadService.validateBucketName`.  Returns `none` on success. -/
def validateBucketName (bucket : String) : Option Err :=
  let b := normalizeBucket bucket
  if b = [] then some .bucketNameRequired
  else if utf8Len b < minBucketNameLength ∨ maxBucketNameLength < utf8Len b then
    some .bucketNameLength
  else if bucketDNSNameMatch b = false then some .bucketNamePattern
  else if containsDoubleDot b = true then some .bucketNameDots
  else none

/-! ### Byte streams and files (`entity.go`, `io.ReadSeekCloser`) -/

/-- An in-memory seekable byte stream (as produced by an opened multipart
file).  `seekable = false` models a content value that does not implement
`io.Seeker`. -/
structure ByteStream where
  data : List Nat
  pos : Nat
  seekable : Bool
deriving DecidableEq, Repr

/-- A single `Read(buffer)` call with a buffer of size `n`: returns the
bytes read and the advanced stream. -/
def streamRead (s : ByteStream) (n : Nat) : List Nat × ByteStream :=
  let chunk := (s.data.drop s.pos).take n
  (chunk, { s with pos := s.pos + chunk.length })

/-- `Seek(0, io.SeekStart)`. -/
def seekStart (s : ByteStream) : ByteStream := { s with pos := 0 }

/-- `upload.File`. -/
structure GoFile where
  name : String
  url : String
  content : ByteStream
  size : Int
  contentType : String
deriving DecidableEq, Repr

/-! ### Content validation (`uploadService.validateFile`) -/

/-- The `allowedTypes` map. -/
def allowedTypes (t : String) : Bool :=
  t == "image/jpeg" || t == "image/png" || t == "application/pdf"

/-- `uploadService.validateFile`, parametric in the content-sniffing
function `detect` (Go's `http.DetectContentType`, an external stdlib
collaborator).  Returns the verdict, the file with its stream state after
validation, and how many stream reads were issued. -/
def validateFile (detect : List Nat → String) (f : GoFile) :
    Option Err × GoFile × Nat :=
  if !f.content.seekable then (some .contentNotSeekable, f, 0)
  else
    let rd := streamRead f.content 512
    let f1 := { f with content := seekStart rd.2 }
    if allowedTypes (detect rd.1) then (none, f1, 1)
    else (some .invalidFileType, f1, 1)

/-! ### Single upload (`uploadService.UploadFile`) -/

/-- One `repo.Upload` invocation as observed by the backend. -/
structure PutCall where
  bucket : String
  key : String
deriving DecidableEq, Repr

/-- Observable side effects of one `UploadFile` call. -/
structure UploadTrace where
  streamReads : Nat
  idGens : Nat
  putCalls : List PutCall
deriving DecidableEq, Repr

/-- `uploadService.UploadFile`: validate bucket, validate content,
generate an identity (`idGen = none` models `uuid.NewV7` failing),
rename to `<id><original extension>`, delegate to `repo.Upload`
(abstracted as `put`).  Returns the result, the mutated file, and the
side-effect trace. -/
def uploadFile (detect : List Nat → String) (idGen : Option String)
    (put : String → String → Except String String)
    (bucket : String) (f : GoFile) :
    Except Err String × GoFile × UploadTrace :=
  match validateBucketName bucket with
  | some e => (.error e, f, ⟨0, 0, []⟩)
  | none =>
    match validateFile detect f with
    | (some e, f1, n) => (.error e, f1, ⟨n, 0, []⟩)
    | (none, f1, n) =>
      match idGen with
      | none => (.error .uuidGenFailed, f1, ⟨n, 1, []⟩)
      | some id =>
        let f2 := { f1 with name := id ++ goExtStr f.name }
        match put bucket f2.name with
        | .error m => (.error (.backend m), f2, ⟨n, 1, [⟨bucket, f2.name⟩]⟩)
        | .ok url => (.ok url, { f2 with url := url }, ⟨n, 1, [⟨bucket, f2.name⟩]⟩)

/-- `S3Repository.Upload`'s returned locator:
`https://<bucket>.s3.<region>.amazonaws.com/<file.Name>`. -/
def s3UploadURL (region bucket key : String) : String :=
  "https://" ++ bucket ++ ".s3." ++ region ++ ".amazonaws.com/" ++ key

/-! ### Multi-file upload (`uploadService.UploadMultipleFiles`)

One errgroup task per file; `up i` is the outcome of task `i`'s
`s.UploadFile` call (kept abstract so it can absorb context-cancellation
effects), and `order` is the real-time completion order of the tasks.
`errgroup.Group.Wait` returns the error of the first task, in completion
order, to fail; on full success `results[i]` holds task `i`'s URL. -/

/-- The error captured by the errgroup's `errOnce`: the first failure in
completion order. -/
def firstFailure (up : Nat → Except Err String) : List Nat → Option Err
  | [] => none
  | i :: rest =>
    match up i with
    | .error e => some e
    | .ok _ => firstFailure up rest

/-- `uploadService.UploadMultipleFiles` over `n` files. -/
def uploadMultipleFiles (up : Nat → Except Err String) (n : Nat)
    (order : List Nat) : Except Err (List String) :=
  match firstFailure up order with
  | some e => .error e
  | none =>
    .ok ((List.range n).map fun i =>
      match up i with
      | .ok u => u
      | .error _ => "")

/-! ### Listing (`uploadService.ListFiles`) -/

/-- `upload.FileSummary` (timestamps elided). -/
structure FileSummary where
  key : String
  url : String
  size : Int
  humanReadableSize : String
  extension : String
  storageClass : String
deriving DecidableEq, Repr

/-- `upload.PaginatedFiles`. -/
structure PaginatedFiles where
  files : List FileSummary
  nextToken : String
deriving DecidableEq, Repr

/-- One `repo.List` invocation as observed by the backend. -/
structure ListCall where
  bucket : String
  pfx : String
  token : String
  limit : Int
deriving DecidableEq, Repr

/-- Go's `int32(x)` conversion on a (64-bit) `int`. -/
def toInt32 (n : Int) : Int := (n + 2 ^ 31) % 2 ^ 32 - 2 ^ 31

/-- The filter target: `ext` lower-cased, prefixed with `.` if missing. -/
def filterTarget (ext : String) : List Char :=
  let t := goToLower ext.data
  match t with
  | '.' :: _ => t
  | _ => '.' :: t

/-- `uploadService.ListFiles`, parametric in the backend listing
(`repo.List`, abstracted as `backendList`).  Returns the result together
with the list of backend listing invocations. -/
def listFiles (backendList : String → String → String → Int → PaginatedFiles)
    (bucket ext token : String) (limit : Int) :
    Except Err PaginatedFiles × List ListCall :=
  match validateBucketName bucket with
  | some e => (.error e, [])
  | none =>
    let lim := toInt32 (if limit ≤ 0 then 10 else limit)
    let res := backendList bucket "" token lim
    let calls := [ListCall.mk bucket "" token lim]
    if ext == "" then (.ok res, calls)
    else
      let target := filterTarget ext
      let filtered := res.files.filter fun f => goToLower f.extension.data = target
      (.ok { res with files := filtered }, calls)

/-! ### Bucket stats (`uploadService.GetBucketStats`, `S3Repository.GetStats`) -/

/-- One object of the backend's listing response. -/
structure S3Object where
  key : String
  size : Int
deriving DecidableEq, Repr

/-- `upload.BucketStats`. -/
structure BucketStats where
  bucketName : String
  totalFiles : Nat
  totalSizeBytes : Int
  totalSizeFormatted : String
deriving DecidableEq, Repr

/-! ### Byte-size formatting (`formatBytes`) -/

/-- The division count of `formatBytes`' loop, starting from `n = b / 1024`:
how many further divisions by 1024 are needed before the quotient drops
below 1024. -/
def expLoop (n : Nat) : Nat :=
  if 1024 ≤ n then expLoop (n / 1024) + 1 else 0
decreasing_by exact Nat.div_lt_self (by omega) (by omega)

/-- Round `num / den` to the nearest integer, ties to even (the rounding
realised by binary floating point on exactly representable quotients). -/
def roundHalfEven (num den : Nat) : Nat :=
  let q := num / den
  let r := num % den
  if 2 * r < den then q
  else if den < 2 * r then q + 1
  else if q % 2 = 0 then q else q + 1

/-- Bit length of `n`, with enough fuel for 64-bit values. -/
def bitsAux : Nat → Nat → Nat
  | 0, _ => 0
  | fuel + 1, n => if n = 0 then 0 else bitsAux fuel (n / 2) + 1

def natBits (n : Nat) : Nat := bitsAux 64 n

/-- Go's `float64(b)` for `0 ≤ b < 2 ^ 64`: round to 53 significand bits,
nearest, ties to even.  Returned as the exact integer the double denotes
(every finite double of magnitude `≥ 2 ^ 52` is an integer). -/
def float64OfPos (n : Nat) : Nat :=
  if n < 2 ^ 53 then n
  else
    let s := natBits n - 53
    roundHalfEven n (2 ^ s) * 2 ^ s

/-- `%.1f` of `float64(b) / float64(div)` where `div` is the power of two
`1024 ^ (exp+1)`: `float64(div)` is exact and dividing a double by a power
of two only shifts its exponent (no rounding, no overflow in this range),
so the quotient double denotes exactly `float64OfPos b / div`; Go's
fixed-precision formatting then rounds that exact binary value to one
decimal digit, ties to even. -/
def oneDecimalString (b div : Nat) : String :=
  let t := roundHalfEven (10 * float64OfPos b) div
  toString (t / 10) ++ "." ++ toString (t % 10)

/-- The spec's words for the rendering: the exact quotient `b / div` to
one decimal place (agrees with `oneDecimalString` whenever `b < 2 ^ 53`,
where `float64(b)` is exact). -/
def specOneDecimalString (b div : Nat) : String :=
  let t := roundHalfEven (10 * b) div
  toString (t / 10) ++ "." ++ toString (t % 10)

/-- The unit letters `"KMGTPE"`. -/
def unitLetters : List Char := ['K', 'M', 'G', 'T', 'P', 'E']

/-- `formatBytes` (`s3_repository.go`): below 1024 print `"<n> B>"`;
otherwise divide down and print one decimal plus the `exp`-th unit letter.
Go's `"KMGTPE"[exp]` panics when out of bounds; modelled with a `'?'`
default, shown never to be reached for `int64` inputs. -/
def formatBytes (b : Int) : String :=
  if b < 1024 then toString b ++ " B"
  else
    let e := expLoop (b.toNat / 1024)
    let dv : Nat := 1024 ^ (e + 1)
    oneDecimalString b.toNat dv ++ " " ++ String.mk [unitLetters.getD e '?'] ++ "B"

/-- Go's `int64(x)` two's-complement wrap-around. -/
def toInt64 (n : Int) : Int := (n + 2 ^ 63) % 2 ^ 64 - 2 ^ 63

/-- The `totalSize += aws.ToInt64(obj.Size)` loop of `GetStats`:
accumulation in `int64`, wrapping on overflow. -/
def sumInt64 (sizes : List Int) : Int :=
  sizes.foldl (fun acc x => toInt64 (acc + x)) 0

/-- `S3Repository.GetStats`: one listing page, sizes summed in `int64`. -/
def getStats (page : List S3Object) (bucket : String) : BucketStats :=
  { bucketName := bucket
    totalFiles := page.length
    totalSizeBytes := sumInt64 (page.map S3Object.size)
    totalSizeFormatted := formatBytes (sumInt64 (page.map S3Object.size)) }

/-- `uploadService.GetBucketStats`: validate, then delegate to
`repo.GetStats` (whose single `ListObjectsV2` response is `page`).
The second component records the bucket argument of each backend listing
request. -/
def getBucketStats (page : List S3Object) (bucket : String) :
    Except Err BucketStats × List String :=
  match validateBucketName bucket with
  | some e => (.error e, [])
  | none => (.ok (getStats page bucket), [bucket])

/-- `15 * time.Minute` in nanoseconds (Go `time.Duration`). -/
def presignExpiry : Int := 15 * 60 * 1000000000

/-- `uploadService.GetDownloadURL`: validate, then
`repo.GetPresignURL(ctx, bucket, key, 15*time.Minute)`.  The second
component records the bucket argument of each backend invocation. -/
def getDownloadURL (presign : String → String → Int → Except String String)
    (bucket key : String) : Except Err String × List String :=
  match validateBucketName bucket with
  | some e => (.error e, [])
  | none =>
    match presign bucket key presignExpiry with
    | .error m => (.error (.backend m), [bucket])
    | .ok u => (.ok u, [bucket])

/-- `uploadService.DownloadFile`: validate, then `repo.Download`. -/
def downloadFile (download : String → String → Except String ByteStream)
    (bucket key : String) : Except Err ByteStream × List String :=
  match validateBucketName bucket with
  | some e => (.error e, [])
  | none =>
    match download bucket key with
    | .error m => (.error (.backend m), [bucket])
    | .ok s => (.ok s, [bucket])

/-- `uploadService.DeleteFile`: empty-key check, then bucket validation,
then `repo.Delete` (the 5s delete deadline is elided like the upload
deadline). -/
def deleteFile (del : String → String → Except String Unit)
    (bucket key : String) : Except Err Unit × List String :=
  if key = "" then (.error .keyRequired, [])
  else
    match validateBucketName bucket with
    | some e => (.error e, [])
    | none =>
      match del bucket key with
      | .error m => (.error (.backend m), [bucket])
      | .ok _ => (.ok (), [bucket])

/-- `uploadService.CreateBucket`: validate, `repo.CheckBucketExists`
(which maps any backend error to `false`), conflict check, then
`repo.CreateBucket`. -/
def createBucket (checkExists : String → Bool)
    (create : String → Except String Unit) (bucket : String) :
    Except Err Unit × List String :=
  match validateBucketName bucket with
  | some e => (.error e, [])
  | none =>
    if checkExists bucket then (.error .bucketAlreadyExists, [bucket])
    else
      match create bucket with
      | .error m => (.error (.backend m), [bucket, bucket])
      | .ok _ => (.ok (), [bucket, bucket])

/-- `uploadService.DeleteBucket`: validate, then `repo.DeleteBucket`. -/
def deleteBucket (del : String → Except String Unit) (bucket : String) :
    Except Err Unit × List String :=
  match validateBucketName bucket with
  | some e => (.error e, [])
  | none =>
    match del bucket with
    | .error m => (.error (.backend m), [bucket])
    | .ok _ => (.ok (), [bucket])

/-- `uploadService.EmptyBucket`: validate, then `repo.DeleteAll`. -/
def emptyBucket (delAll : String → Except String Unit) (bucket : String) :
    Except Err Unit × List String :=
  match validateBucketName bucket with
  | some e => (.error e, [])
  | none =>
    match delAll bucket with
    | .error m => (.error (.backend m), [bucket])
    | .ok _ => (.ok (), [bucket])

/-! ### Spec-side characterisations -/

/-- The spec's reading of the bucket-name pattern: starts and ends with a
lowercase alphanumeric character, with only lowercase alphanumerics, dots
and hyphens in between. -/
def SpecPatternOk (l : List Char) : Prop :=
  ∃ c₁ mid c₂, l = c₁ :: (mid ++ [c₂]) ∧ isLowerAlnum c₁ = true ∧
    isLowerAlnum c₂ = true ∧ ∀ c ∈ mid, isBucketMiddleChar c = true

/-! ## Theorems -/

lemma isLowerAlnum_ascii {c : Char} (h : isLowerAlnum c = true) :
    c.toNat ≤ 127 := by
  simp only [isLowerAlnum, Bool.or_eq_true, Bool.and_eq_true,
    decide_eq_true_eq] at h
  omega

lemma isBucketMiddleChar_ascii {c : Char} (h : isBucketMiddleChar c = true) :
    c.toNat ≤ 127 := by
  simp only [isBucketMiddleChar, Bool.or_eq_true, beq_iff_eq] at h
  rcases h with (h | h) | h
  · exact isLowerAlnum_ascii h
  · omega
  · omega

lemma charUtf8Size_of_ascii {c : Char} (h : c.toNat ≤ 127) :
    charUtf8Size c = 1 := by
  unfold charUtf8Size
  rw [if_pos h]

lemma utf8Len_eq_length {l : List Char} (h : ∀ c ∈ l, c.toNat ≤ 127) :
    utf8Len l = l.length := by
  induction l with
  | nil => rfl
  | cons a t ih =>
    have ha : charUtf8Size a = 1 := charUtf8Size_of_ascii (h a (by simp))
    have ht := ih fun c hc => h c (by simp [hc])
    simp only [utf8Len, List.map_cons, List.sum_cons, List.length_cons] at *
    omega

lemma specPatternOk_ascii {l : List Char} (h : SpecPatternOk l) :
    ∀ c ∈ l, c.toNat ≤ 127 := by
  obtain ⟨c₁, mid, c₂, rfl, h₁, h₂, hmid⟩ := h
  intro c hc
  rcases List.mem_cons.1 hc with rfl | hc
  · exact isLowerAlnum_ascii h₁
  · rcases List.mem_append.1 hc with hc | hc
    · exact isBucketMiddleChar_ascii (hmid c hc)
    · rcases List.mem_singleton.1 hc with rfl
      exact isLowerAlnum_ascii h₂

lemma bucketDNSNameMatch_concat (a b : Char) (L : List Char) :
    bucketDNSNameMatch (a :: (L ++ [b])) = true ↔
      3 ≤ L.length + 2 ∧ L.length + 2 ≤ 63 ∧ isLowerAlnum a = true ∧
      isLowerAlnum b = true ∧ ∀ c ∈ L, isBucketMiddleChar c = true := by
  have hlast : (a :: (L ++ [b])).getLast? = some b := by
    rw [show a :: (L ++ [b]) = (a :: L) ++ [b] by simp, List.getLast?_concat]
  simp only [bucketDNSNameMatch, hlast, List.head?_cons, List.drop_one,
    List.tail_cons, List.dropLast_concat, List.length_cons,
    List.length_append, List.length_singleton, List.length_nil,
    Bool.and_eq_true, decide_eq_true_eq, List.all_eq_true]
  constructor
  · rintro ⟨⟨⟨⟨h3, h63⟩, ha⟩, hb'⟩, hmid⟩
    exact ⟨by omega, by omega, ha, hb', hmid⟩
  · rintro ⟨h3, h63, ha, hb', hmid⟩
    exact ⟨⟨⟨⟨by omega, by omega⟩, ha⟩, hb'⟩, hmid⟩

lemma bucketDNSNameMatch_iff (l : List Char) :
    bucketDNSNameMatch l = true ↔
      3 ≤ l.length ∧ l.length ≤ 63 ∧ SpecPatternOk l := by
  rcases l with _ | ⟨a, t⟩
  · simp [bucketDNSNameMatch]
  rcases t.eq_nil_or_concat with rfl | ⟨L, b, rfl⟩
  · constructor
    · intro h
      simp only [bucketDNSNameMatch, Bool.and_eq_true, decide_eq_true_eq,
        List.length_cons, List.length_nil] at h
      omega
    · rintro ⟨h3, -, -⟩
      simp only [List.length_cons, List.length_nil] at h3
      omega
  · rw [List.concat_eq_append, bucketDNSNameMatch_concat]
    constructor
    · rintro ⟨h3, h63, ha, hb, hmid⟩
      exact ⟨by simpa using h3, by simpa using h63, a, L, b, rfl, ha, hb, hmid⟩
    · rintro ⟨h3, h63, c₁, mid, c₂, heq, h₁, h₂, hmid⟩
      have hlen : L.length + 2 = (a :: (L ++ [b])).length := by simp
      have hmid' : mid = L ∧ a = c₁ ∧ b = c₂ := by
        have : (a :: (L ++ [b] : List Char)) = c₁ :: (mid ++ [c₂]) := heq
        have h₀ : a = c₁ := (List.cons.injEq _ _ _ _ ▸ this).1
        have htail : L ++ [b] = mid ++ [c₂] :=
          (List.cons.injEq _ _ _ _ ▸ this).2
        have := List.append_inj_right' htail (by simp)
        have hL : L = mid := List.append_inj_left' htail (by simp)
        exact ⟨hL.symm, h₀, by simpa using this⟩
      obtain ⟨rfl, rfl, rfl⟩ := hmid'
      refine ⟨?_, ?_, h₁, h₂, hmid⟩
      · simp at h3
        omega
      · simp at h63
        omega

lemma bucketDNSNameMatch_iff_spec {l : List Char}
    (h3 : 3 ≤ utf8Len l) (h63 : utf8Len l ≤ 63) :
    bucketDNSNameMatch l = true ↔ SpecPatternOk l := by
  rw [bucketDNSNameMatch_iff]
  constructor
  · exact fun h => h.2.2
  · intro h
    have hlen := utf8Len_eq_length (specPatternOk_ascii h)
    exact ⟨by omega, by omega, h⟩

/-- C3: after lowercasing and trimming, the validator rejects with
`BucketNameRequired` exactly on the empty name, with the length error
exactly when the (byte) length is outside `[3,63]`, with the pattern error
exactly when a length-admissible name does not start and end with a
lowercase alphanumeric with only lowercase alphanumerics, dots and hyphens
in between, errors whenever the name contains two consecutive dots, and
succeeds otherwise. -/
theorem validateBucketName_spec (bucket : String) :
    (validateBucketName bucket = some .bucketNameRequired ↔
      normalizeBucket bucket = []) ∧
    (validateBucketName bucket = some .bucketNameLength ↔
      normalizeBucket bucket ≠ [] ∧
      (utf8Len (normalizeBucket bucket) < 3 ∨
        63 < utf8Len (normalizeBucket bucket))) ∧
    (validateBucketName bucket = some .bucketNamePattern ↔
      3 ≤ utf8Len (normalizeBucket bucket) ∧
      utf8Len (normalizeBucket bucket) ≤ 63 ∧
      ¬ SpecPatternOk (normalizeBucket bucket)) ∧
    (validateBucketName bucket = some .bucketNameDots →
      containsDoubleDot (normalizeBucket bucket) = true) ∧
    (containsDoubleDot (normalizeBucket bucket) = true →
      validateBucketName bucket ≠ none) ∧
    (validateBucketName bucket = none ↔
      SpecPatternOk (normalizeBucket bucket) ∧
      3 ≤ utf8Len (normalizeBucket bucket) ∧
      utf8Len (normalizeBucket bucket) ≤ 63 ∧
      containsDoubleDot (normalizeBucket bucket) = false) := by
  set b := normalizeBucket bucket with hb
  have hunfold : validateBucketName bucket =
      (if b = [] then some Err.bucketNameRequired
       else if utf8Len b < minBucketNameLength ∨ maxBucketNameLength < utf8Len b then
         some Err.bucketNameLength
       else if bucketDNSNameMatch b = false then some Err.bucketNamePattern
       else if containsDoubleDot b = true then some Err.bucketNameDots
       else none) := rfl
  by_cases h1 : b = []
  · rw [hunfold, if_pos h1]
    have hlen : utf8Len b = 0 := by rw [h1]; rfl
    have hpat : ¬ SpecPatternOk b := by
      rintro ⟨c₁, mid, c₂, habs, -⟩
      rw [h1] at habs
      exact List.noConfusion habs
    refine ⟨iff_of_true rfl h1, ?_, ?_, ?_, ?_, ?_⟩
    · exact iff_of_false (fun h => Err.noConfusion (Option.some.inj h))
        (fun h => h.1 h1)
    · exact iff_of_false (fun h => Err.noConfusion (Option.some.inj h))
        (fun h => by omega)
    · exact fun h => absurd (Option.some.inj h) (fun hh => Err.noConfusion hh)
    · exact fun _ h => Option.noConfusion h
    · exact iff_of_false (fun h => Option.noConfusion h)
        (fun h => absurd h.1 hpat)
  · rw [hunfold, if_neg h1]
    by_cases h2 : utf8Len b < minBucketNameLength ∨ maxBucketNameLength < utf8Len b
    · rw [if_pos h2]
      have h2' : utf8Len b < 3 ∨ 63 < utf8Len b := h2
      refine ⟨?_, iff_of_true rfl ⟨h1, h2'⟩, ?_, ?_, ?_, ?_⟩
      · exact iff_of_false (fun h => Err.noConfusion (Option.some.inj h)) h1
      · exact iff_of_false (fun h => Err.noConfusion (Option.some.inj h))
          (fun h => by omega)
      · exact fun h => absurd (Option.some.inj h) (fun hh => Err.noConfusion hh)
      · exact fun _ h => Option.noConfusion h
      · exact iff_of_false (fun h => Option.noConfusion h)
          (fun h => by have := h.2.1; have := h.2.2.1; omega)
    · rw [if_neg h2]
      have h2' : ¬ (utf8Len b < 3 ∨ 63 < utf8Len b) := h2
      have h3 : 3 ≤ utf8Len b := by omega
      have h63 : utf8Len b ≤ 63 := by omega
      by_cases hm : bucketDNSNameMatch b = false
      · rw [if_pos hm]
        have hpat : ¬ SpecPatternOk b := by
          intro hp
          rw [← bucketDNSNameMatch_iff_spec h3 h63] at hp
          rw [hm] at hp
          exact Bool.noConfusion hp
        refine ⟨?_, ?_, iff_of_true rfl ⟨h3, h63, hpat⟩, ?_, ?_, ?_⟩
        · exact iff_of_false (fun h => Err.noConfusion (Option.some.inj h)) h1
        · exact iff_of_false (fun h => Err.noConfusion (Option.some.inj h))
            (fun h => by have := h.2; omega)
        · exact fun h => absurd (Option.some.inj h) (fun hh => Err.noConfusion hh)
        · exact fun _ h => Option.noConfusion h
        · exact iff_of_false (fun h => Option.noConfusion h)
            (fun h => absurd h.1 hpat)
      · rw [if_neg hm]
        have hm' : bucketDNSNameMatch b = true := by
          revert hm
          cases bucketDNSNameMatch b <;> simp
        have hpat : SpecPatternOk b := (bucketDNSNameMatch_iff_spec h3 h63).1 hm'
        by_cases hd : containsDoubleDot b = true
        · rw [if_pos hd]
          refine ⟨?_, ?_, ?_, fun _ => hd, ?_, ?_⟩
          · exact iff_of_false (fun h => Err.noConfusion (Option.some.inj h)) h1
          · exact iff_of_false (fun h => Err.noConfusion (Option.some.inj h))
              (fun h => by have := h.2; omega)
          · exact iff_of_false (fun h => Err.noConfusion (Option.some.inj h))
              (fun h => absurd hpat h.2.2)
          · exact fun _ h => Option.noConfusion h
          · exact iff_of_false (fun h => Option.noConfusion h)
              (fun h => by rw [hd] at h; exact Bool.noConfusion h.2.2.2)
        · rw [if_neg hd]
          have hd' : containsDoubleDot b = false := by
            revert hd
            cases containsDoubleDot b <;> simp
          refine ⟨?_, ?_, ?_, ?_, fun h => absurd h hd,
            iff_of_true rfl ⟨hpat, h3, h63, hd'⟩⟩
          · exact iff_of_false (fun h => Option.noConfusion h) h1
          · exact iff_of_false (fun h => Option.noConfusion h)
              (fun h => by have := h.2; omega)
          · exact iff_of_false (fun h => Option.noConfusion h)
              (fun h => absurd hpat h.2.2)
          · exact fun h => Option.noConfusion h

lemma expLoop_of_lt {n : Nat} (h : n < 1024) : expLoop n = 0 := by
  rw [expLoop]
  simp [Nat.not_le.2 h]

lemma expLoop_of_le {n : Nat} (h : 1024 ≤ n) :
    expLoop n = expLoop (n / 1024) + 1 := by
  rw [expLoop]
  simp [h]

/-- The division count is determined by the power-of-1024 bracket. -/
lemma expLoop_bracket :
    ∀ (e n : Nat), 1024 ^ e ≤ n → n < 1024 ^ (e + 1) → expLoop n = e
  | 0, n, _, h2 => expLoop_of_lt (by simpa using h2)
  | e + 1, n, h1, h2 => by
    have hn : 1024 ≤ n :=
      le_trans (Nat.le_self_pow (Nat.succ_ne_zero e) 1024) h1
    have hdiv1 : 1024 ^ e ≤ n / 1024 := by
      rw [Nat.le_div_iff_mul_le (by norm_num)]
      calc 1024 ^ e * 1024 = 1024 ^ (e + 1) := (pow_succ 1024 e).symm
        _ ≤ n := h1
    have hdiv2 : n / 1024 < 1024 ^ (e + 1) := by
      rw [Nat.div_lt_iff_lt_mul (by norm_num)]
      calc n < 1024 ^ (e + 1 + 1) := h2
        _ = 1024 ^ (e + 1) * 1024 := pow_succ 1024 (e + 1)
    rw [expLoop_of_le hn, expLoop_bracket e (n / 1024) hdiv1 hdiv2]

lemma expLoop_le {e : Nat} : ∀ {n : Nat}, n < 1024 ^ (e + 1) → expLoop n ≤ e := by
  induction e with
  | zero => intro n h; rw [expLoop_of_lt (by simpa using h)]
  | succ e ih =>
    intro n h
    by_cases hn : 1024 ≤ n
    · have : n / 1024 < 1024 ^ (e + 1) := by
        rw [Nat.div_lt_iff_lt_mul (by norm_num)]
        calc n < 1024 ^ (e + 1 + 1) := h
          _ = 1024 ^ (e + 1) * 1024 := pow_succ 1024 (e + 1)
      rw [expLoop_of_le hn]
      exact Nat.succ_le_succ (ih this)
    · rw [expLoop_of_lt (Nat.not_le.1 hn)]
      exact Nat.zero_le _

/-- The small branch of `formatBytes`. -/
lemma formatBytes_small {b : Int} (hb : b < 1024) :
    formatBytes b = toString b ++ " B" := by
  unfold formatBytes
  rw [if_pos hb]

/-- The loop branch of `formatBytes`, characterised by the power bracket
containing `b`. -/
lemma formatBytes_bracket (b : Int) (e : Nat)
    (hle : (1024 : Int) ^ (e + 1) ≤ b) (hlt : b < (1024 : Int) ^ (e + 2)) :
    formatBytes b = oneDecimalString b.toNat (1024 ^ (e + 1)) ++ " " ++
      String.mk [unitLetters.getD e '?'] ++ "B" := by
  have hb1024 : (1024 : Int) ≤ b :=
    le_trans (le_self_pow₀ (by norm_num) (Nat.succ_ne_zero e)) hle
  have hn1 : 1024 ^ (e + 1) ≤ b.toNat := by
    have h' : ((1024 ^ (e + 1) : Nat) : Int) ≤ b := by
      push_cast
      exact hle
    omega
  have hn2 : b.toNat < 1024 ^ (e + 2) := by
    have h' : b < ((1024 ^ (e + 2) : Nat) : Int) := by
      push_cast
      exact hlt
    omega
  have hdiv1 : 1024 ^ e ≤ b.toNat / 1024 := by
    rw [Nat.le_div_iff_mul_le (by norm_num)]
    calc 1024 ^ e * 1024 = 1024 ^ (e + 1) := (pow_succ 1024 e).symm
      _ ≤ b.toNat := hn1
  have hdiv2 : b.toNat / 1024 < 1024 ^ (e + 1) := by
    rw [Nat.div_lt_iff_lt_mul (by norm_num)]
    calc b.toNat < 1024 ^ (e + 2) := hn2
      _ = 1024 ^ (e + 1) * 1024 := pow_succ 1024 (e + 1)
  have hexp : expLoop (b.toNat / 1024) = e :=
    expLoop_bracket e _ hdiv1 hdiv2
  unfold formatBytes
  rw [if_neg (by omega)]
  rw [hexp]

/-- Below `2 ^ 53` the float64 conversion is exact, so the rendered digits
are those of the exact quotient. -/
lemma oneDecimalString_small {b : Nat} (h : b < 2 ^ 53) (dv : Nat) :
    oneDecimalString b dv = specOneDecimalString b dv := by
  unfold oneDecimalString specOneDecimalString float64OfPos
  rw [if_pos h]

set_option maxRecDepth 8192 in
/-- C7: `formatBytes` renders counts below 1024 as `"<n> B"`; any larger
count falling in the bracket `[1024 ^ (e+1), 1024 ^ (e+2))` is rendered as
the (float64) quotient by `1024 ^ (e+1)` with one decimal place, a space,
the `e`-th letter of `KMGTPE`, and `B` — for counts below `2 ^ 53` that is
exactly the true quotient to one decimal place; in particular `0`, `1023`,
`1024`, `1536` and `1048576` render as `"0 B"`, `"1023 B"`, `"1.0 KB"`,
`"1.5 KB"`, `"1.0 MB"`. -/
theorem formatBytes_spec :
    (∀ b : Int, b < 1024 → formatBytes b = toString b ++ " B") ∧
    (∀ (b : Int) (e : Nat), (1024 : Int) ^ (e + 1) ≤ b →
      b < (1024 : Int) ^ (e + 2) →
      formatBytes b = oneDecimalString b.toNat (1024 ^ (e + 1)) ++ " " ++
        String.mk [unitLetters.getD e '?'] ++ "B") ∧
    (∀ (b : Int) (e : Nat), (1024 : Int) ^ (e + 1) ≤ b →
      b < (1024 : Int) ^ (e + 2) → b < 2 ^ 53 →
      formatBytes b = specOneDecimalString b.toNat (1024 ^ (e + 1)) ++ " " ++
        String.mk [unitLetters.getD e '?'] ++ "B") ∧
    formatBytes 0 = "0 B" ∧ formatBytes 1023 = "1023 B" ∧
    formatBytes 1024 = "1.0 KB" ∧ formatBytes 1536 = "1.5 KB" ∧
    formatBytes 1048576 = "1.0 MB" := by
  refine ⟨fun b hb => formatBytes_small hb,
    fun b e hle hlt => formatBytes_bracket b e hle hlt,
    fun b e hle hlt hsmall => ?_, ?_, ?_, ?_, ?_, ?_⟩
  · rw [formatBytes_bracket b e hle hlt,
      oneDecimalString_small (by omega) (1024 ^ (e + 1))]
  · rw [formatBytes_small (by norm_num)]
    decide
  · rw [formatBytes_small (by norm_num)]
    decide
  · rw [formatBytes_bracket 1024 0 (by norm_num) (by norm_num)]
    decide
  · rw [formatBytes_bracket 1536 0 (by norm_num) (by norm_num)]
    decide
  · rw [formatBytes_bracket 1048576 1 (by norm_num) (by norm_num)]
    decide

set_option maxRecDepth 8192 in
/-- Witness for C7 at `b = 2048`, `e = 0`. -/
theorem formatBytes_spec_witness :
    ((1024 : Int) ^ 1 ≤ 2048 ∧ (2048 : Int) < 1024 ^ 2) ∧
    formatBytes 2048 = "2.0 KB" := by
  refine ⟨⟨by norm_num, by norm_num⟩, ?_⟩
  have h := formatBytes_spec.2.1 2048 0 (by norm_num) (by norm_num)
  rw [h]
  decide

set_option maxRecDepth 8192 in
/-- C10: `formatBytes` is total on the `int64` range: the division count
never exceeds 5, so indexing `"KMGTPE"` is in bounds even at the maximum
`int64`, and every negative input takes the `"<n> B"` branch. -/
theorem formatBytes_total_int64 :
    (∀ b : Int, b < 2 ^ 63 →
      expLoop (b.toNat / 1024) ≤ 5 ∧
      (unitLetters.get? (expLoop (b.toNat / 1024))).isSome = true) ∧
    (∀ b : Int, b < 0 → formatBytes b = toString b ++ " B") ∧
    formatBytes (-5) = "-5 B" ∧
    formatBytes (2 ^ 63 - 1) = "8.0 EB" := by
  refine ⟨?_, fun b hb => formatBytes_small (by omega), ?_, ?_⟩
  · intro b hb
    have hm : b.toNat / 1024 < 1024 ^ 6 := by
      have h1 : b.toNat < 2 ^ 63 := by omega
      have h2 : b.toNat / 1024 < 2 ^ 53 := by omega
      calc b.toNat / 1024 < 2 ^ 53 := h2
        _ < 1024 ^ 6 := by norm_num
    have h5 : expLoop (b.toNat / 1024) ≤ 5 := expLoop_le hm
    refine ⟨h5, ?_⟩
    have hlen : unitLetters.length = 6 := rfl
    rcases hget : unitLetters.get? (expLoop (b.toNat / 1024)) with _ | c
    · rw [List.get?_eq_none] at hget
      omega
    · rfl
  · rw [formatBytes_small (by norm_num)]
    decide
  · rw [formatBytes_bracket (2 ^ 63 - 1) 5 (by norm_num) (by norm_num)]
    decide

/-- Witness for C10 at `b = -7` and `b = 2 ^ 62`. -/
theorem formatBytes_total_int64_witness :
    ((2 : Int) ^ 62 < 2 ^ 63 ∧
      expLoop (((2 : Int) ^ 62).toNat / 1024) ≤ 5 ∧
      (unitLetters.get? (expLoop (((2 : Int) ^ 62).toNat / 1024))).isSome = true) ∧
    ((-7 : Int) < 0 ∧ formatBytes (-7) = "-7 B") := by
  refine ⟨⟨by norm_num, ?_, ?_⟩, ⟨by norm_num, ?_⟩⟩
  · exact ((formatBytes_total_int64.1 (2 ^ 62) (by norm_num)).1)
  · exact ((formatBytes_total_int64.1 (2 ^ 62) (by norm_num)).2)
  · exact formatBytes_total_int64.2.1 (-7) (by norm_num)

lemma goExtAux_nil_or_suffix :
    ∀ (rev acc : List Char), goExtAux acc rev = [] ∨
      ∃ pre, pre ++ goExtAux acc rev = rev.reverse ++ acc
  | [], _ => Or.inl rfl
  | c :: rest, acc => by
    unfold goExtAux
    by_cases hc : c = '/'
    · rw [if_pos hc]
      exact Or.inl rfl
    · rw [if_neg hc]
      by_cases hd : c = '.'
      · rw [if_pos hd]
        exact Or.inr ⟨rest.reverse, by simp⟩
      · rw [if_neg hd]
        rcases goExtAux_nil_or_suffix rest (c :: acc) with h | ⟨pre, hpre⟩
        · exact Or.inl h
        · refine Or.inr ⟨pre, ?_⟩
          rw [hpre]
          simp

lemma goExt_nil_or_suffix (l : List Char) :
    goExt l = [] ∨ ∃ pre, pre ++ goExt l = l := by
  rcases goExtAux_nil_or_suffix l.reverse [] with h | ⟨pre, hpre⟩
  · exact Or.inl h
  · refine Or.inr ⟨pre, ?_⟩
    simpa using hpre

/-- If the caller name's stem differs from the generated identifier, the
rewritten name `id ++ ext` differs from the caller name. -/
lemma key_ne_name_of_stem_ne {id name : String} (h : goStemStr name ≠ id) :
    id ++ goExtStr name ≠ name := by
  intro heq
  apply h
  have hdata : id.data ++ goExt name.data = name.data := by
    have := congrArg String.data heq
    simpa [goExtStr] using this
  rcases goExt_nil_or_suffix name.data with hnil | ⟨pre, hpre⟩
  · rw [hnil, List.append_nil] at hdata
    have hidname : id = name := String.ext hdata
    have hstem : goStemStr name = name := by
      unfold goStemStr
      rw [hnil]
      simp only [List.length_nil, Nat.sub_zero, List.take_length]
    rw [hstem, hidname]
  · have hid : id.data = pre := by
      have h' : id.data ++ goExt name.data = pre ++ goExt name.data := by
        rw [hdata, hpre]
      exact List.append_cancel_right h'
    have hlen : name.data.length - (goExt name.data).length = pre.length := by
      have h' := congrArg List.length hpre
      simp only [List.length_append] at h'
      omega
    unfold goStemStr
    rw [hlen, ← hpre, List.take_left]
    exact String.ext (by simpa using hid.symm)

/-- On the successful-validation path the single backend put call records
the caller's bucket and the rewritten key. -/
lemma uploadFile_putCalls (detect : List Nat → String) (id : String)
    (put : String → String → Except String String) (bucket : String)
    (f f1 : GoFile) (n : Nat)
    (hb : validateBucketName bucket = none)
    (hv : validateFile detect f = (none, f1, n)) :
    (uploadFile detect (some id) put bucket f).2.2.putCalls =
      [⟨bucket, id ++ goExtStr f.name⟩] := by
  unfold uploadFile
  rw [hb, hv]
  rcases hput : put bucket (id ++ goExtStr f.name) with m | u
  · simp [hput]
  · simp [hput]

/-- C2 (amended): on the successful path, the key given to the backend put
is exactly `<id><original extension>`, and it differs from the
caller-supplied name whenever the name's stem is not the identifier
itself. -/
theorem uploadFile_persisted_key (detect : List Nat → String) (id : String)
    (put : String → String → Except String String) (bucket : String)
    (f f1 : GoFile) (n : Nat)
    (hb : validateBucketName bucket = none)
    (hv : validateFile detect f = (none, f1, n)) :
    (uploadFile detect (some id) put bucket f).2.2.putCalls =
      [⟨bucket, id ++ goExtStr f.name⟩] ∧
    (goStemStr f.name ≠ id → id ++ goExtStr f.name ≠ f.name) :=
  ⟨uploadFile_putCalls detect id put bucket f f1 n hb hv,
    fun h => key_ne_name_of_stem_ne h⟩

/-- Witness for C2's amended theorem at a concrete PDF upload. -/
theorem uploadFile_persisted_key_witness :
    validateBucketName "docs" = none ∧
    validateFile (fun _ => "application/pdf")
      ⟨"doc.pdf", "", ⟨[37, 80, 68, 70], 0, true⟩, 4, ""⟩ =
      (none, ⟨"doc.pdf", "", ⟨[37, 80, 68, 70], 0, true⟩, 4, ""⟩, 1) ∧
    (uploadFile (fun _ => "application/pdf") (some "u-1")
        (fun _ k => Except.ok k) "docs"
        ⟨"doc.pdf", "", ⟨[37, 80, 68, 70], 0, true⟩, 4, ""⟩).2.2.putCalls =
      [⟨"docs", "u-1" ++ goExtStr "doc.pdf"⟩] ∧
    (goStemStr "doc.pdf" ≠ "u-1" → "u-1" ++ goExtStr "doc.pdf" ≠ "doc.pdf") := by
  have h := uploadFile_persisted_key (fun _ => "application/pdf") "u-1"
    (fun _ k => Except.ok k) "docs"
    ⟨"doc.pdf", "", ⟨[37, 80, 68, 70], 0, true⟩, 4, ""⟩
    ⟨"doc.pdf", "", ⟨[37, 80, 68, 70], 0, true⟩, 4, ""⟩ 1
    (by decide) (by decide)
  exact ⟨by decide, by decide, h.1, h.2⟩

/-- C2 counterexample: a successful single upload whose persisted key
contains the caller-supplied base name (`"p"` of `"p.png"` occurs in the
`".png"` suffix of the key), refuting "never equals or contains the
caller-supplied base name". -/
theorem uploadFile_key_contains_base_name :
    (uploadFile (fun _ => "image/png")
        (some "00000000-0000-7000-8000-000000000000")
        (fun b k => Except.ok (s3UploadURL "us-east-1" b k)) "my-bucket"
        ⟨"p.png", "", ⟨[137, 80, 78, 71], 0, true⟩, 4, ""⟩).1 =
      Except.ok (s3UploadURL "us-east-1" "my-bucket"
        "00000000-0000-7000-8000-000000000000.png") ∧
    (uploadFile (fun _ => "image/png")
        (some "00000000-0000-7000-8000-000000000000")
        (fun b k => Except.ok (s3UploadURL "us-east-1" b k)) "my-bucket"
        ⟨"p.png", "", ⟨[137, 80, 78, 71], 0, true⟩, 4, ""⟩).2.2.putCalls =
      [⟨"my-bucket", "00000000-0000-7000-8000-000000000000.png"⟩] ∧
    goStemStr "p.png" = "p" ∧
    (goStemStr "p.png").data <:+:
      "00000000-0000-7000-8000-000000000000.png".data := by
  refine ⟨by decide, by decide, by decide, by decide⟩

/-- Evaluation of `validateFile` on a seekable stream. -/
lemma validateFile_eval (detect : List Nat → String) (f : GoFile)
    (hseek : f.content.seekable = true) :
    validateFile detect f =
      ((if allowedTypes (detect ((f.content.data.drop f.content.pos).take 512))
          = true then none else some Err.invalidFileType),
        { f with content := { f.content with pos := 0 } }, 1) := by
  simp only [validateFile, hseek, Bool.not_true, Bool.false_eq_true,
    if_false, streamRead, seekStart]
  split <;> rfl

/-- C4: with a seekable stream positioned at the start, content validation
accepts exactly when the type sniffed from the first (up to) 512 bytes is
allow-listed, leaves the read position at offset 0 on acceptance, and
rejects with `InvalidFileType` on any other detected type. -/
theorem validateFile_spec (detect : List Nat → String) (f : GoFile)
    (hseek : f.content.seekable = true) (hpos : f.content.pos = 0) :
    ((validateFile detect f).1 = none ↔
      allowedTypes (detect (f.content.data.take 512)) = true) ∧
    ((validateFile detect f).1 = none →
      (validateFile detect f).2.1.content.pos = 0) ∧
    (allowedTypes (detect (f.content.data.take 512)) = false →
      (validateFile detect f).1 = some .invalidFileType) := by
  have hval := validateFile_eval detect f hseek
  rw [hpos, List.drop_zero] at hval
  rw [hval]
  by_cases hallow : allowedTypes (detect (f.content.data.take 512)) = true
  · rw [if_pos hallow]
    exact ⟨⟨fun _ => hallow, fun _ => rfl⟩, fun _ => rfl,
      fun hfalse => by rw [hallow] at hfalse; exact Bool.noConfusion hfalse⟩
  · rw [if_neg hallow]
    exact ⟨⟨fun h => Option.noConfusion h, fun h => absurd h hallow⟩,
      fun h => Option.noConfusion h, fun _ => rfl⟩

/-- Witness for C4 at a concrete PNG stream. -/
theorem validateFile_spec_witness :
    ((⟨[137, 80, 78, 71], 0, true⟩ : ByteStream).seekable = true ∧
      (⟨[137, 80, 78, 71], 0, true⟩ : ByteStream).pos = 0) ∧
    ((validateFile (fun _ => "image/png")
        ⟨"x.png", "", ⟨[137, 80, 78, 71], 0, true⟩, 4, ""⟩).1 = none ↔
      allowedTypes ((fun _ => "image/png")
        (([137, 80, 78, 71] : List Nat).take 512)) = true) := by
  have h := validateFile_spec (fun _ => "image/png")
    ⟨"x.png", "", ⟨[137, 80, 78, 71], 0, true⟩, 4, ""⟩ rfl rfl
  exact ⟨⟨rfl, rfl⟩, h.1⟩

/-- C5: a bucket-validation failure is returned with no stream read, no
identity generated and no backend call; a content-validation failure is
returned with no identity generated and no backend call. -/
theorem uploadFile_failfast (detect : List Nat → String) (idGen : Option String)
    (put : String → String → Except String String) (bucket : String)
    (f : GoFile) :
    (∀ e, validateBucketName bucket = some e →
      uploadFile detect idGen put bucket f = (.error e, f, ⟨0, 0, []⟩)) ∧
    (∀ e f1 n, validateBucketName bucket = none →
      validateFile detect f = (some e, f1, n) →
      uploadFile detect idGen put bucket f = (.error e, f1, ⟨n, 0, []⟩)) := by
  constructor
  · intro e he
    unfold uploadFile
    rw [he]
  · intro e f1 n hb hv
    unfold uploadFile
    rw [hb, hv]

/-- Witness for C5: an empty bucket name and a rejected content type. -/
theorem uploadFile_failfast_witness :
    validateBucketName "" = some .bucketNameRequired ∧
    uploadFile (fun _ => "text/html") (some "u-1") (fun _ k => Except.ok k)
      "" ⟨"a.png", "", ⟨[0], 0, true⟩, 1, ""⟩ =
      (.error .bucketNameRequired, ⟨"a.png", "", ⟨[0], 0, true⟩, 1, ""⟩,
        ⟨0, 0, []⟩) ∧
    validateFile (fun _ => "text/html") ⟨"a.png", "", ⟨[0], 0, true⟩, 1, ""⟩ =
      (some .invalidFileType, ⟨"a.png", "", ⟨[0], 0, true⟩, 1, ""⟩, 1) ∧
    uploadFile (fun _ => "text/html") (some "u-1") (fun _ k => Except.ok k)
      "abc" ⟨"a.png", "", ⟨[0], 0, true⟩, 1, ""⟩ =
      (.error .invalidFileType, ⟨"a.png", "", ⟨[0], 0, true⟩, 1, ""⟩,
        ⟨1, 0, []⟩) := by
  refine ⟨by decide, ?_, by decide, ?_⟩
  · exact (uploadFile_failfast (fun _ => "text/html") (some "u-1")
      (fun _ k => Except.ok k) "" ⟨"a.png", "", ⟨[0], 0, true⟩, 1, ""⟩).1
      .bucketNameRequired (by decide)
  · exact (uploadFile_failfast (fun _ => "text/html") (some "u-1")
      (fun _ k => Except.ok k) "abc" ⟨"a.png", "", ⟨[0], 0, true⟩, 1, ""⟩).2
      .invalidFileType ⟨"a.png", "", ⟨[0], 0, true⟩, 1, ""⟩ 1 (by decide)
      (by decide)

lemma firstFailure_eq_none (up : Nat → Except Err String) (order : List Nat)
    (h : ∀ i ∈ order, ∃ u, up i = .ok u) : firstFailure up order = none := by
  induction order with
  | nil => rfl
  | cons i rest ih =>
    obtain ⟨u, hu⟩ := h i (by simp)
    unfold firstFailure
    rw [hu]
    exact ih fun j hj => h j (by simp [hj])

lemma firstFailure_mem {up : Nat → Except Err String} {order : List Nat}
    {e : Err} (h : firstFailure up order = some e) :
    ∃ i ∈ order, up i = .error e := by
  induction order with
  | nil => exact Option.noConfusion h
  | cons i rest ih =>
    unfold firstFailure at h
    rcases hu : up i with e' | u
    · rw [hu] at h
      exact ⟨i, by simp, by rw [hu, Option.some_inj.1 h]⟩
    · rw [hu] at h
      obtain ⟨j, hj, hje⟩ := ih h
      exact ⟨j, by simp [hj], hje⟩

lemma firstFailure_isSome {up : Nat → Except Err String} {order : List Nat}
    {j : Nat} {e' : Err} (hj : j ∈ order) (hje : up j = .error e') :
    ∃ e, firstFailure up order = some e := by
  induction order with
  | nil => cases hj
  | cons i rest ih =>
    unfold firstFailure
    rcases hu : up i with e0 | u
    · exact ⟨e0, rfl⟩
    · rcases List.mem_cons.1 hj with rfl | hjr
      · rw [hu] at hje
        exact Except.noConfusion hje
      · exact ih hjr

/-- C1: for any completion order of the `n` concurrent tasks, if every
upload succeeds the call returns the URLs slotted by input position, and
if any upload fails the call returns an error of one of the failing tasks
and no URL list at all. -/
theorem uploadMultipleFiles_spec (up : Nat → Except Err String) (n : Nat)
    (order : List Nat) (hperm : order.Perm (List.range n)) :
    ((∀ i, i < n → ∃ u, up i = .ok u) →
      ∃ urls, uploadMultipleFiles up n order = .ok urls ∧
        urls.length = n ∧
        ∀ i, i < n → ∃ u, up i = .ok u ∧ urls.get? i = some u) ∧
    ((∃ i, i < n ∧ ∃ e, up i = .error e) →
      ∃ e, uploadMultipleFiles up n order = .error e ∧
        ∃ i, i < n ∧ up i = .error e) := by
  constructor
  · intro hok
    have hnone : firstFailure up order = none := by
      refine firstFailure_eq_none up order fun i hi => hok i ?_
      exact List.mem_range.1 (hperm.mem_iff.1 hi)
    refine ⟨(List.range n).map fun i =>
      (match up i with | .ok u => u | .error _ => ""), ?_, by simp, ?_⟩
    · unfold uploadMultipleFiles
      rw [hnone]
    · intro i hi
      obtain ⟨u, hu⟩ := hok i hi
      refine ⟨u, hu, ?_⟩
      rw [List.get?_map, List.get?_range hi, Option.map_some', hu]
  · rintro ⟨i, hi, e', hie⟩
    have hmem : i ∈ order := hperm.mem_iff.2 (List.mem_range.2 hi)
    obtain ⟨e, he⟩ := firstFailure_isSome hmem hie
    refine ⟨e, ?_, ?_⟩
    · unfold uploadMultipleFiles
      rw [he]
    · obtain ⟨j, hj, hje⟩ := firstFailure_mem he
      exact ⟨j, List.mem_range.1 (hperm.mem_iff.1 hj), hje⟩

/-- Witness for C1: two successful uploads completing in reverse order. -/
theorem uploadMultipleFiles_spec_witness :
    ([1, 0] : List Nat).Perm (List.range 2) ∧
    (∃ urls, uploadMultipleFiles (fun i => Except.ok (toString i)) 2 [1, 0] =
        .ok urls ∧ urls.length = 2 ∧
      ∀ i, i < 2 → ∃ u, (Except.ok (toString i) : Except Err String) =
        Except.ok u ∧ urls.get? i = some u) := by
  refine ⟨by decide, ?_⟩
  exact (uploadMultipleFiles_spec (fun i => Except.ok (toString i)) 2 [1, 0]
    (by decide)).1 (fun i _ => ⟨toString i, rfl⟩)

/-- C6: with a valid bucket, `ListFiles` calls the backend exactly once
with an empty prefix, the caller's token, and the limit defaulted to 10
when non-positive; the result page is an order-preserving subsequence of
the fetched page containing exactly the entries whose lower-cased
extension matches the normalised filter (everything, when the filter is
empty), with the backend's next-page token passed through unmodified. -/
theorem listFiles_spec
    (backendList : String → String → String → Int → PaginatedFiles)
    (bucket ext token : String) (limit : Int)
    (hb : validateBucketName bucket = none) :
    (listFiles backendList bucket ext token limit).2 =
      [⟨bucket, "", token, toInt32 (if limit ≤ 0 then 10 else limit)⟩] ∧
    (limit ≤ 0 → toInt32 (if limit ≤ 0 then 10 else limit) = 10) ∧
    (∃ res, (listFiles backendList bucket ext token limit).1 = .ok res ∧
      res.nextToken = (backendList bucket "" token
        (toInt32 (if limit ≤ 0 then 10 else limit))).nextToken ∧
      res.files = (if ext = "" then
        (backendList bucket "" token
          (toInt32 (if limit ≤ 0 then 10 else limit))).files
        else (backendList bucket "" token
          (toInt32 (if limit ≤ 0 then 10 else limit))).files.filter fun f =>
            decide (goToLower f.extension.data = filterTarget ext)) ∧
      res.files.Sublist (backendList bucket "" token
        (toInt32 (if limit ≤ 0 then 10 else limit))).files ∧
      (ext ≠ "" → ∀ f ∈ (backendList bucket "" token
          (toInt32 (if limit ≤ 0 then 10 else limit))).files,
        (f ∈ res.files ↔ goToLower f.extension.data = filterTarget ext)) ∧
      (ext = "" → res.files = (backendList bucket "" token
        (toInt32 (if limit ≤ 0 then 10 else limit))).files)) := by
  set lim := toInt32 (if limit ≤ 0 then 10 else limit) with hlim
  set page := backendList bucket "" token lim with hpage
  have hdefault : limit ≤ 0 → lim = 10 := by
    intro h
    rw [hlim, if_pos h]
    decide
  by_cases hext : ext = ""
  · have heval : listFiles backendList bucket ext token limit =
        (.ok page, [⟨bucket, "", token, lim⟩]) := by
      unfold listFiles
      rw [hb, hext]
      rfl
    rw [heval]
    exact ⟨rfl, hdefault, page, rfl, rfl, by rw [if_pos hext],
      List.Sublist.refl _, fun h => absurd hext h, fun _ => rfl⟩
  · have hbeq : (ext == "") = false := beq_eq_false_iff_ne.2 hext
    have heval : listFiles backendList bucket ext token limit =
        (Except.ok (PaginatedFiles.mk
            (page.files.filter fun f =>
              decide (goToLower f.extension.data = filterTarget ext))
            page.nextToken),
          [ListCall.mk bucket "" token lim]) := by
      unfold listFiles
      rw [hb]
      simp only [hbeq, Bool.false_eq_true, if_false]
    rw [heval]
    refine ⟨rfl, hdefault,
      PaginatedFiles.mk
        (page.files.filter fun f =>
          decide (goToLower f.extension.data = filterTarget ext))
        page.nextToken,
      rfl, rfl, by rw [if_neg hext], List.filter_sublist _, ?_,
      fun h => absurd h hext⟩
    intro _ f hf
    constructor
    · intro hmem
      have hdec := (List.mem_filter.1 hmem).2
      exact of_decide_eq_true hdec
    · intro htarget
      exact List.mem_filter.2 ⟨hf, decide_eq_true htarget⟩

/-- Witness for C6: a mixed page filtered by `"PNG"`. -/
theorem listFiles_spec_witness :
    validateBucketName "abc" = none ∧
    (listFiles
      (fun _ _ _ _ => ⟨[⟨"a.png", "", 1, "1 B", ".png", ""⟩,
        ⟨"b.txt", "", 1, "1 B", ".txt", ""⟩], "tok-next"⟩)
      "abc" "PNG" "tok-in" 0).2 = [⟨"abc", "", "tok-in", 10⟩] ∧
    (listFiles
      (fun _ _ _ _ => ⟨[⟨"a.png", "", 1, "1 B", ".png", ""⟩,
        ⟨"b.txt", "", 1, "1 B", ".txt", ""⟩], "tok-next"⟩)
      "abc" "PNG" "tok-in" 0).1 =
      .ok ⟨[⟨"a.png", "", 1, "1 B", ".png", ""⟩], "tok-next"⟩ := by
  have h := listFiles_spec
    (fun _ _ _ _ => ⟨[⟨"a.png", "", 1, "1 B", ".png", ""⟩,
      ⟨"b.txt", "", 1, "1 B", ".txt", ""⟩], "tok-next"⟩)
    "abc" "PNG" "tok-in" 0 (by decide)
  refine ⟨by decide, ?_, by decide⟩
  have h1 := h.1
  simpa using h1

lemma toInt64_eq_self {y : Int} (h1 : -(2 ^ 63) ≤ y) (h2 : y < 2 ^ 63) :
    toInt64 y = y := by
  unfold toInt64
  rw [Int.emod_eq_of_lt (by omega) (by omega)]
  omega

lemma sumInt64_foldl_no_wrap :
    ∀ (sizes : List Int) (acc : Int), 0 ≤ acc →
      (∀ x ∈ sizes, 0 ≤ x) → acc + sizes.sum < 2 ^ 63 →
      sizes.foldl (fun a x => toInt64 (a + x)) acc = acc + sizes.sum
  | [], acc, _, _, _ => by simp
  | x :: xs, acc, hacc, hall, hlt => by
    have hx : 0 ≤ x := hall x (by simp)
    have hxs : ∀ y ∈ xs, 0 ≤ y := fun y hy => hall y (by simp [hy])
    have hsum : 0 ≤ xs.sum := List.sum_nonneg hxs
    rw [List.sum_cons] at hlt
    have hstep : toInt64 (acc + x) = acc + x :=
      toInt64_eq_self (by omega) (by omega)
    rw [List.foldl_cons, hstep,
      sumInt64_foldl_no_wrap xs (acc + x) (by omega) hxs (by omega),
      List.sum_cons]
    ring

/-- The int64 accumulation agrees with the mathematical sum as long as all
sizes are nonnegative and the total stays below `2 ^ 63`. -/
lemma sumInt64_eq_sum {sizes : List Int} (hall : ∀ x ∈ sizes, 0 ≤ x)
    (hlt : sizes.sum < 2 ^ 63) : sumInt64 sizes = sizes.sum := by
  have h := sumInt64_foldl_no_wrap sizes 0 le_rfl hall (by omega)
  simpa [sumInt64] using h

/-- C8 (amended): with a valid bucket, `GetBucketStats` issues exactly one
backend listing request and returns totals over that single page: the file
count, the sizes' sum accumulated in `int64` (wrapping on overflow, and
equal to the true sum whenever the sizes are nonnegative and total below
`2 ^ 63`), and the formatter applied to that sum; with an invalid bucket
it issues no request. -/
theorem getBucketStats_spec (page : List S3Object) (bucket : String)
    (hb : validateBucketName bucket = none) :
    (getBucketStats page bucket).2 = [bucket] ∧
    (∃ st, (getBucketStats page bucket).1 = .ok st ∧
      st.totalFiles = page.length ∧
      st.totalSizeBytes = sumInt64 (page.map S3Object.size) ∧
      ((∀ x ∈ page.map S3Object.size, 0 ≤ x) →
        (page.map S3Object.size).sum < 2 ^ 63 →
        st.totalSizeBytes = (page.map S3Object.size).sum) ∧
      st.totalSizeFormatted = formatBytes st.totalSizeBytes) ∧
    (∀ (bucket' : String) (e : Err), validateBucketName bucket' = some e →
      getBucketStats page bucket' = (.error e, [])) := by
  refine ⟨?_, ?_, ?_⟩
  · unfold getBucketStats
    rw [hb]
  · refine ⟨getStats page bucket, ?_, rfl, rfl, ?_, rfl⟩
    · unfold getBucketStats
      rw [hb]
    · intro hall hlt
      exact sumInt64_eq_sum hall hlt
  · intro bucket' e he
    unfold getBucketStats
    rw [he]

/-- Witness for C8's amended theorem: a two-object page. -/
theorem getBucketStats_spec_witness :
    validateBucketName "abc" = none ∧
    (getBucketStats [⟨"a.png", 100⟩, ⟨"b.txt", 200⟩] "abc").2 = ["abc"] ∧
    (getBucketStats [⟨"a.png", 100⟩, ⟨"b.txt", 200⟩] "abc").1 =
      .ok ⟨"abc", 2, 300, "300 B"⟩ := by
  have h := getBucketStats_spec [⟨"a.png", 100⟩, ⟨"b.txt", 200⟩] "abc"
    (by decide)
  refine ⟨by decide, h.1, by decide⟩

/-- C8 counterexample: a page of two `2 ^ 62`-byte objects (int64-valid
sizes) whose true sum is `2 ^ 63`; the code's int64 accumulation wraps to
`-(2 ^ 63)`, so `TotalSizeBytes` is not the sum of the objects' sizes. -/
theorem getBucketStats_wraps :
    validateBucketName "abc" = none ∧
    (getBucketStats [⟨"a.bin", 2 ^ 62⟩, ⟨"b.bin", 2 ^ 62⟩] "abc").1 =
      .ok (getStats [⟨"a.bin", 2 ^ 62⟩, ⟨"b.bin", 2 ^ 62⟩] "abc") ∧
    (getStats [⟨"a.bin", 2 ^ 62⟩, ⟨"b.bin", 2 ^ 62⟩] "abc").totalSizeBytes =
      -(2 ^ 63) ∧
    (([⟨"a.bin", 2 ^ 62⟩, ⟨"b.bin", 2 ^ 62⟩] : List S3Object).map
      S3Object.size).sum = 2 ^ 63 ∧
    (-(2 ^ 63) : Int) ≠ 2 ^ 63 := by
  refine ⟨by decide, ?_, by decide, by decide, by decide⟩
  unfold getBucketStats
  rw [show validateBucketName "abc" = none from by decide]

lemma uploadFile_putCalls_bucket (detect : List Nat → String)
    (idGen : Option String) (put : String → String → Except String String)
    (bucket : String) (f : GoFile) :
    ∀ call ∈ (uploadFile detect idGen put bucket f).2.2.putCalls,
      call.bucket = bucket := by
  intro call hcall
  unfold uploadFile at hcall
  rcases hvb : validateBucketName bucket with _ | e
  · rw [hvb] at hcall
    rcases hvf : validateFile detect f with ⟨o, f1, n⟩
    rw [hvf] at hcall
    rcases o with _ | e2
    · rcases idGen with _ | id
      · simp at hcall
      · simp only [] at hcall
        rcases hput : put bucket (id ++ goExtStr f.name) with m | u <;>
          rw [hput] at hcall <;> simp at hcall <;> rw [hcall]
    · simp at hcall
  · rw [hvb] at hcall
    simp at hcall

lemma listFiles_calls_bucket
    (backendList : String → String → String → Int → PaginatedFiles)
    (bucket ext token : String) (limit : Int) :
    ∀ call ∈ (listFiles backendList bucket ext token limit).2,
      call.bucket = bucket := by
  intro call hcall
  unfold listFiles at hcall
  rcases hvb : validateBucketName bucket with _ | e
  · rw [hvb] at hcall
    rcases hext : (ext == "") with _ | _ <;> rw [hext] at hcall <;>
      simp at hcall <;> rw [hcall]
  · rw [hvb] at hcall
    simp at hcall

/-- C9: every operation that takes a bucket argument forwards the caller's
original, unnormalised string to the backend — every recorded backend
invocation of UploadFile (hence also UploadMultipleFiles' per-file tasks),
ListFiles, GetBucketStats, GetDownloadURL, DownloadFile, DeleteFile,
CreateBucket, DeleteBucket and EmptyBucket carries `bucket` verbatim —
while validation folds only its local copy, so `" MyBucket "` validates
(as `"mybucket"`) yet is forwarded with case and spaces intact. -/
theorem service_forwards_original_bucket
    (bucket key : String)
    (detect : List Nat → String) (idGen : Option String)
    (put : String → String → Except String String) (f : GoFile)
    (backendList : String → String → String → Int → PaginatedFiles)
    (ext token : String) (limit : Int) (page : List S3Object)
    (presign : String → String → Int → Except String String)
    (download : String → String → Except String ByteStream)
    (del : String → String → Except String Unit)
    (checkExists : String → Bool)
    (create delB delAll : String → Except String Unit) :
    (∀ call ∈ (uploadFile detect idGen put bucket f).2.2.putCalls,
      call.bucket = bucket) ∧
    (∀ call ∈ (listFiles backendList bucket ext token limit).2,
      call.bucket = bucket) ∧
    (∀ b ∈ (getBucketStats page bucket).2, b = bucket) ∧
    (∀ b ∈ (getDownloadURL presign bucket key).2, b = bucket) ∧
    (∀ b ∈ (downloadFile download bucket key).2, b = bucket) ∧
    (∀ b ∈ (deleteFile del bucket key).2, b = bucket) ∧
    (∀ b ∈ (createBucket checkExists create bucket).2, b = bucket) ∧
    (∀ b ∈ (deleteBucket delB bucket).2, b = bucket) ∧
    (∀ b ∈ (emptyBucket delAll bucket).2, b = bucket) ∧
    validateBucketName " MyBucket " = none ∧
    normalizeBucket " MyBucket " = "mybucket".data ∧
    " MyBucket " ≠ "mybucket" := by
  refine ⟨uploadFile_putCalls_bucket detect idGen put bucket f,
    listFiles_calls_bucket backendList bucket ext token limit,
    ?_, ?_, ?_, ?_, ?_, ?_, ?_, by decide, by decide, by decide⟩
  · intro b hbm
    unfold getBucketStats at hbm
    rcases hvb : validateBucketName bucket with _ | e
    · rw [hvb] at hbm
      simp at hbm
      exact hbm
    · rw [hvb] at hbm
      simp at hbm
  · intro b hbm
    unfold getDownloadURL at hbm
    rcases hvb : validateBucketName bucket with _ | e
    · rw [hvb] at hbm
      rcases hc : presign bucket key presignExpiry with m | u <;>
        rw [hc] at hbm <;> simpa using hbm
    · rw [hvb] at hbm
      simp at hbm
  · intro b hbm
    unfold downloadFile at hbm
    rcases hvb : validateBucketName bucket with _ | e
    · rw [hvb] at hbm
      rcases hc : download bucket key with m | u <;>
        rw [hc] at hbm <;> simpa using hbm
    · rw [hvb] at hbm
      simp at hbm
  · intro b hbm
    unfold deleteFile at hbm
    by_cases hk : key = ""
    · rw [if_pos hk] at hbm
      simp at hbm
    · rw [if_neg hk] at hbm
      rcases hvb : validateBucketName bucket with _ | e
      · rw [hvb] at hbm
        rcases hc : del bucket key with m | u <;>
          rw [hc] at hbm <;> simpa using hbm
      · rw [hvb] at hbm
        simp at hbm
  · intro b hbm
    unfold createBucket at hbm
    rcases hvb : validateBucketName bucket with _ | e
    · rw [hvb] at hbm
      by_cases hex : checkExists bucket = true
      · rw [if_pos hex] at hbm
        simpa using hbm
      · rw [if_neg hex] at hbm
        rcases hc : create bucket with m | u <;>
          rw [hc] at hbm <;> simpa using hbm
    · rw [hvb] at hbm
      simp at hbm
  · intro b hbm
    unfold deleteBucket at hbm
    rcases hvb : validateBucketName bucket with _ | e
    · rw [hvb] at hbm
      rcases hc : delB bucket with m | u <;>
        rw [hc] at hbm <;> simpa using hbm
    · rw [hvb] at hbm
      simp at hbm
  · intro b hbm
    unfold emptyBucket at hbm
    rcases hvb : validateBucketName bucket with _ | e
    · rw [hvb] at hbm
      rcases hc : delAll bucket with m | u <;>
        rw [hc] at hbm <;> simpa using hbm
    · rw [hvb] at hbm
      simp at hbm

/-- Witness for C9: concrete backends with bucket `" MyBucket "`. -/
theorem service_forwards_original_bucket_witness :
    validateBucketName " MyBucket " = none ∧
    " MyBucket " ≠ "mybucket" ∧
    (∀ call ∈ (uploadFile (fun _ => "image/png") (some "u")
        (fun _ k => Except.ok k) " MyBucket "
        ⟨"a.png", "", ⟨[1], 0, true⟩, 1, ""⟩).2.2.putCalls,
      call.bucket = " MyBucket ") := by
  have h := service_forwards_original_bucket " MyBucket " "k.png"
    (fun _ => "image/png") (some "u") (fun _ k => Except.ok k)
    ⟨"a.png", "", ⟨[1], 0, true⟩, 1, ""⟩
    (fun _ _ _ _ => ⟨[], ""⟩) "" "" 0 []
    (fun _ _ _ => Except.ok "") (fun _ _ => Except.ok ⟨[], 0, true⟩)
    (fun _ _ => Except.ok ()) (fun _ => false)
    (fun _ => Except.ok ()) (fun _ => Except.ok ()) (fun _ => Except.ok ())
  exact ⟨h.2.2.2.2.2.2.2.2.2.1, by decide, h.1⟩

end GoS3
